import Mathlib

/-!
Verification of the unilink library against its natural-language
specification.  The definitions below are shallow embeddings of the C++
sources: `InputValidator` (input_validator.cc / input_validator.hpp),
`ErrorHandler` (error_handler.cc), the `wrapper::TcpServer` facade
(tcp_server.cc) and `builder::TcpServerBuilder` (tcp_server_builder.cc).
Strings are modelled as `List Char`; fallible C++ code that throws is
modelled with `Except String`.
-/

namespace Unilink

abbrev Str := List Char

/-- Convenience: the character list of a string literal. -/
def str (s : String) : Str := s.data

/-- The last `n` elements of a list, in order (all of them when the list is
shorter). -/
def lastN (n : Nat) (xs : List α) : List α := xs.drop (xs.length - n)

/-- Splitting on a delimiter, keeping every (possibly empty) field,
including a trailing empty field: the decomposition induced by the
delimiter occurrences.  `splitAll ':' "a:" = ["a", ""]`. -/
def splitAll (d : Char) : Str → List Str
  | [] => [[]]
  | c :: rest =>
    let ps := splitAll d rest
    if c = d then [] :: ps
    else (c :: ps.headD []) :: ps.tail

/-- The token sequence produced by the C++ idiom
`while (std::getline(ss, tok, '.'))` on a non-empty stream: fields are
separated by `'.'`, and a trailing delimiter produces no final empty
field (`getline` fails at end of stream).  The accumulator holds the
characters of the current field in reverse. -/
def dotLabels : Str → Str → List Str
  | [], acc => [acc.reverse]
  | c :: rest, acc =>
    if c = '.' then
      acc.reverse :: (if rest.isEmpty then [] else dotLabels rest [])
    else
      dotLabels rest (c :: acc)

/-- `std::getline` tokenisation of a whole string on `'.'`: no token at
all for the empty string, otherwise `dotLabels`. -/
def getlineSplit (s : Str) : List Str :=
  if s.isEmpty then [] else dotLabels s []

/-- Numeric value of a digit string (the value `std::stoll`/`std::stoi`
computes from the digits it consumed). -/
def natOfDigits (ds : Str) : Nat :=
  ds.foldl (fun a c => a * 10 + (c.toNat - '0'.toNat)) 0

/-- The whitespace characters skipped by `std::stoi` (C `isspace`). -/
def isSpaceChar (c : Char) : Bool :=
  c = ' ' || c = '\t' || c = '\n' || c = '\r' || c.toNat = 11 || c.toNat = 12

/-- `std::stoi` on a string: skip leading whitespace, an optional sign,
then at least one digit; trailing non-digits are ignored.  `none` models
the `std::invalid_argument` (no digits) and `std::out_of_range`
(outside `int`) exceptions. -/
def cppStoi (s : Str) : Option Int :=
  let s1 := s.dropWhile isSpaceChar
  let (sgn, s2) : Int × Str :=
    match s1 with
    | '+' :: r => (1, r)
    | '-' :: r => (-1, r)
    | _ => (1, s1)
  let digs := s2.takeWhile Char.isDigit
  if digs.isEmpty then none
  else
    let v : Int := sgn * (natOfDigits digs : Nat)
    if v < -2147483648 ∨ 2147483647 < v then none else some v

namespace InputValidator

def MAX_HOSTNAME_LENGTH : Nat := 253
def MAX_DEVICE_PATH_LENGTH : Nat := 256

/-- One octet of a dotted quad, as checked by the loop body of
`InputValidator::is_valid_ipv4`: non-empty, no leading zero (except "0"
itself), digits only, value at most 255 (`stoll` overflow also yields
`false` and is subsumed by the range test). -/
def isValidOctet (oct : Str) : Bool :=
  if oct.isEmpty then false
  else if oct.length > 1 && oct.headD ' ' = '0' then false
  else if !(oct.all Char.isDigit) then false
  else natOfDigits oct ≤ 255

/-- `InputValidator::is_valid_ipv4`. -/
def is_valid_ipv4 (address : Str) : Bool :=
  let octets := getlineSplit address
  octets.length = 4 && octets.all isValidOctet

/-- A hexadecimal digit, as in the character class of the IPv6 regex. -/
def isHexDigitChar (c : Char) : Bool :=
  c.isDigit || ('a' ≤ c && c ≤ 'f') || ('A' ≤ c && c ≤ 'F')

/-- `InputValidator::is_valid_ipv6`: the regex
`([0-9a-fA-F]{1,4}:){7}[0-9a-fA-F]{1,4}`, or exactly `::1`, or `::`. -/
def is_valid_ipv6 (address : Str) : Bool :=
  (address = str "::") || (address = str "::1") ||
  (let gs := splitAll ':' address
   gs.length = 8 && gs.all (fun g => 1 ≤ g.length && g.length ≤ 4 && g.all isHexDigitChar))

/-- The label test in the loop body of `InputValidator::is_valid_hostname`:
non-empty, at most 63 characters, alphanumerics and hyphens only. -/
def hostLabelOk (l : Str) : Bool :=
  !l.isEmpty && l.length ≤ 63 && l.all (fun c => c.isAlphanum || c = '-')

/-- `InputValidator::is_valid_hostname`: non-empty, at most 253
characters, the whole string neither starts nor ends with a hyphen, and
every `getline`-separated label passes `hostLabelOk`. -/
def is_valid_hostname (hostname : Str) : Bool :=
  if hostname.isEmpty || hostname.length > MAX_HOSTNAME_LENGTH then false
  else if hostname.headD ' ' = '-' || hostname.getLastD ' ' = '-' then false
  else (getlineSplit hostname).all hostLabelOk

/-- `InputValidator::validate_host`: empty and over-length inputs throw,
then IPv4, IPv6 and hostname forms are accepted in that order, and
everything else throws. -/
def validate_host (host : Str) : Except String Unit :=
  if host.isEmpty then Except.error "host cannot be empty"
  else if host.length > MAX_HOSTNAME_LENGTH then
    Except.error "host length exceeds maximum allowed length"
  else if is_valid_ipv4 host then Except.ok ()
  else if is_valid_ipv6 host then Except.ok ()
  else if is_valid_hostname host then Except.ok ()
  else Except.error "invalid host format"

/-- Characters allowed in a Unix device path by
`InputValidator::is_valid_device_path`. -/
def devChar (c : Char) : Bool :=
  c.isAlphanum || c = '/' || c = '_' || c = '-'

/-- `InputValidator::is_valid_device_path`: a Unix path starting with `/`
of `devChar`s; otherwise, when the string has length at least 4 and
starts with `COM`, the result is decided by `std::stoi` on the suffix
(value in 1..255); otherwise one of the listed Windows device names. -/
def is_valid_device_path (device : Str) : Bool :=
  if device.isEmpty then false
  else if device.headD ' ' = '/' then device.all devChar
  else if 4 ≤ device.length && device.take 3 = str "COM" then
    match cppStoi (device.drop 3) with
    | some port => 1 ≤ port && port ≤ 255
    | none => false
  else if device = str "NUL" || device = str "CON" || device = str "PRN" ||
          device = str "AUX" || device = str "LPT1" || device = str "LPT2" ||
          device = str "LPT3" then true
  else false

/-- `InputValidator::validate_device_path`. -/
def validate_device_path (device : Str) : Except String Unit :=
  if device.isEmpty then Except.error "device_path cannot be empty"
  else if device.length > MAX_DEVICE_PATH_LENGTH then
    Except.error "device_path length exceeds maximum allowed length"
  else if is_valid_device_path device then Except.ok ()
  else Except.error "invalid device path format"

end InputValidator

/-! ### Relating `getline` tokenisation to declarative splitting -/

/-- Remove the single final empty field that a trailing delimiter adds to
a full split (`std::getline` produces no such field). -/
def dropTrailingEmpty (ls : List Str) : List Str :=
  if ls.getLast? = some ([] : Str) then ls.dropLast else ls

theorem splitAll_ne_nil (d : Char) (s : Str) : splitAll d s ≠ [] := by
  cases s with
  | nil => simp [splitAll]
  | cons c r => simp only [splitAll]; split <;> simp

theorem splitAll_eq_single_empty {d : Char} {s : Str} :
    splitAll d s = [[]] ↔ s = [] := by
  constructor
  · intro h
    cases s with
    | nil => rfl
    | cons c r =>
      exfalso
      simp only [splitAll] at h
      split at h
      · have hne := splitAll_ne_nil d r
        simp only [List.cons.injEq] at h
        exact hne h.2
      · simp only [List.cons.injEq] at h
        exact List.cons_ne_nil c _ h.1
  · intro h; subst h; rfl

theorem cons_dropTrailingEmpty (ls : List Str) (h : ls ≠ []) (h2 : ls ≠ [[]]) :
    ls.headD [] :: dropTrailingEmpty ls.tail = dropTrailingEmpty ls := by
  cases ls with
  | nil => exact absurd rfl h
  | cons q0 qs =>
    cases qs with
    | nil =>
      have hq : q0 ≠ [] := fun e => h2 (by rw [e])
      simp [dropTrailingEmpty, hq]
    | cons q1 qt =>
      simp only [List.headD_cons, List.tail_cons, dropTrailingEmpty,
        List.getLast?_cons_cons]
      split <;> simp [List.dropLast]

theorem dotLabels_eq : ∀ (s acc : Str),
    dotLabels s acc =
      (acc.reverse ++ (splitAll '.' s).headD []) ::
        dropTrailingEmpty (splitAll '.' s).tail := by
  intro s
  induction s with
  | nil => intro acc; simp [dotLabels, splitAll, dropTrailingEmpty]
  | cons c rest ih =>
    intro acc
    by_cases hc : c = '.'
    · subst hc
      by_cases hr : rest = []
      · subst hr
        simp [dotLabels, splitAll, dropTrailingEmpty]
      · have hne : rest.isEmpty = false := by
          simpa [List.isEmpty_iff] using hr
        have hcons := cons_dropTrailingEmpty (splitAll '.' rest)
          (splitAll_ne_nil _ _) (fun e => hr (splitAll_eq_single_empty.mp e))
        simp only [dotLabels, if_pos rfl, hne, Bool.false_eq_true, if_neg,
          ite_false]
        rw [ih []]
        simp only [List.reverse_nil, List.nil_append]
        rw [hcons]
        simp [splitAll, dropTrailingEmpty]
    · simp only [dotLabels, if_neg hc]
      rw [ih (c :: acc)]
      simp [splitAll, if_neg hc, List.reverse_cons, List.append_assoc]

theorem getlineSplit_eq (s : Str) (h : s ≠ []) :
    getlineSplit s = dropTrailingEmpty (splitAll '.' s) := by
  have hne : s.isEmpty = false := by simpa [List.isEmpty_iff] using h
  rw [getlineSplit, hne]
  simp only [Bool.false_eq_true, if_false]
  rw [dotLabels_eq]
  simp only [List.reverse_nil, List.nil_append]
  exact cons_dropTrailingEmpty _ (splitAll_ne_nil _ _)
    (fun e => h (splitAll_eq_single_empty.mp e))

/-! ### Spec-side hostname predicates (claim C1) -/

/-- The hostname predicate exactly as the claim states it: total length at
most 253, every dot-separated label 1 to 63 characters drawn from
alphanumerics and hyphens, and no label starts or ends with a hyphen. -/
def rfc1123Hostname (s : Str) : Bool :=
  !s.isEmpty && s.length ≤ 253 &&
  (splitAll '.' s).all (fun l =>
    1 ≤ l.length && l.length ≤ 63 &&
    l.all (fun c => c.isAlphanum || c = '-') &&
    l.headD ' ' ≠ '-' && l.getLastD ' ' ≠ '-')

/-- The amended hostname predicate: total length at most 253, every
dot-separated label 1 to 63 characters drawn from alphanumerics and
hyphens where a final empty label produced by a trailing dot is ignored,
and the no-leading/trailing-hyphen rule applies to the first and last
character of the whole hostname rather than to each label. -/
def amendedHostname (s : Str) : Bool :=
  !s.isEmpty && s.length ≤ 253 &&
  s.headD ' ' ≠ '-' && s.getLastD ' ' ≠ '-' &&
  (dropTrailingEmpty (splitAll '.' s)).all InputValidator.hostLabelOk

theorem is_valid_hostname_eq_amended (s : Str) :
    InputValidator.is_valid_hostname s = amendedHostname s := by
  by_cases h : s = []
  · subst h; rfl
  · have h1 : s.isEmpty = false := by simpa [List.isEmpty_iff] using h
    rw [InputValidator.is_valid_hostname, amendedHostname, getlineSplit_eq s h]
    by_cases h2 : s.length ≤ 253
    · have h2n : ¬ s.length > InputValidator.MAX_HOSTNAME_LENGTH := by
        simpa [InputValidator.MAX_HOSTNAME_LENGTH] using Nat.not_lt.mpr h2
      by_cases h3 : s.headD ' ' = '-'
      · simp [h1, h2, h2n, h3]
      · by_cases h4 : s.getLastD ' ' = '-'
        · simp [h1, h2, h2n, h3, h4]
        · simp [h1, h2, h2n, h3, h4]
    · have h2n : s.length > InputValidator.MAX_HOSTNAME_LENGTH := by
        simpa [InputValidator.MAX_HOSTNAME_LENGTH] using Nat.lt_of_not_le h2
      simp [h1, h2, h2n]

/-- Claim C1 counterexample: "a.-b" is neither a valid IPv4 nor IPv6
address and is accepted by `validate_host`, yet its second label "-b"
starts with a hyphen, so it is not an RFC 1123 hostname as the claim
describes one. -/
theorem C1_counterexample :
    InputValidator.validate_host (str "a.-b") = Except.ok () ∧
    InputValidator.is_valid_ipv4 (str "a.-b") = false ∧
    InputValidator.is_valid_ipv6 (str "a.-b") = false ∧
    rfc1123Hostname (str "a.-b") = false :=
  ⟨rfl, rfl, rfl, rfl⟩

/-- Claim C1 (amended): for every string that is neither a valid IPv4 nor
IPv6 address, `validate_host` accepts it exactly when it is non-empty, at
most 253 characters long, does not start or end with a hyphen, and every
dot-separated label (ignoring a final empty label produced by a trailing
dot) is 1 to 63 characters drawn from alphanumerics and hyphens; the
per-label no-leading/trailing-hyphen rule of RFC 1123 is enforced only at
the ends of the whole string.  Every other such string throws a
`ValidationException`. -/
theorem C1_host_validation (s : Str)
    (h4 : InputValidator.is_valid_ipv4 s = false)
    (h6 : InputValidator.is_valid_ipv6 s = false) :
    InputValidator.validate_host s = Except.ok () ↔ amendedHostname s = true := by
  rw [← is_valid_hostname_eq_amended]
  unfold InputValidator.validate_host
  by_cases h : s.isEmpty
  · have : InputValidator.is_valid_hostname s = false := by
      simp [InputValidator.is_valid_hostname, h]
    simp [h, this]
  · have h1 : s.isEmpty = false := by simpa using h
    by_cases h2 : s.length > InputValidator.MAX_HOSTNAME_LENGTH
    · have : InputValidator.is_valid_hostname s = false := by
        simp [InputValidator.is_valid_hostname, h2]
      simp [h1, h2, this]
    · rw [h1]
      simp only [Bool.false_eq_true, if_false, if_neg h2, h4, h6]
      split
      · next hh => simp [hh]
      · next hh => simp [hh]

/-- Closed instance of the amended claim C1: "web-01.example.com" is
neither IPv4 nor IPv6 and is accepted by `validate_host`. -/
theorem C1_witness :
    InputValidator.is_valid_ipv4 (str "web-01.example.com") = false ∧
    InputValidator.is_valid_ipv6 (str "web-01.example.com") = false ∧
    InputValidator.validate_host (str "web-01.example.com") = Except.ok () :=
  ⟨rfl, rfl, (C1_host_validation (str "web-01.example.com") rfl rfl).mpr rfl⟩

/-! ### Spec-side device-path predicates (claim C2) -/

/-- The device-path predicate exactly as the claim states it: begins with
'/' and contains only alphanumerics, '/', '_' and '-'; or is "COM"
followed by a digit string denoting a port number in the range 1 to 255;
or is one of the Windows reserved device names. -/
def claimDevicePath (d : Str) : Bool :=
  (d.headD ' ' = '/' && d.all InputValidator.devChar) ||
  (d.take 3 = str "COM" && !(d.drop 3).isEmpty && (d.drop 3).all Char.isDigit &&
     1 ≤ natOfDigits (d.drop 3) && natOfDigits (d.drop 3) ≤ 255) ||
  (d = str "NUL" || d = str "CON" || d = str "PRN" || d = str "AUX" ||
   d = str "LPT1" || d = str "LPT2" || d = str "LPT3")

/-- Claim C2 counterexample: "COM1x" is accepted by
`validate_device_path` (because `std::stoi` parses "1x" as 1 and ignores
the trailing 'x'), yet it is not "COM" followed by a port number, not a
Unix path, and not a reserved name. -/
theorem C2_counterexample :
    InputValidator.validate_device_path (str "COM1x") = Except.ok () ∧
    claimDevicePath (str "COM1x") = false :=
  ⟨rfl, rfl⟩

/-- The three accepted device-path shapes as the code actually decides
them: a Unix path; or length at least 4, prefix "COM", and a suffix that
`std::stoi` parses (leading whitespace and sign allowed, trailing
non-digits ignored) to a value in 1..255; or a reserved name. -/
def devPathForms (d : Str) : Bool :=
  (d.headD ' ' = '/' && d.all InputValidator.devChar) ||
  (4 ≤ d.length && d.take 3 = str "COM" &&
     (match cppStoi (d.drop 3) with
      | some v => 1 ≤ v && v ≤ 255
      | none => false)) ||
  (d = str "NUL" || d = str "CON" || d = str "PRN" || d = str "AUX" ||
   d = str "LPT1" || d = str "LPT2" || d = str "LPT3")

/-- The amended device-path predicate: additionally requires total length
at most 256 (the validator's length cap). -/
def amendedDevicePath (d : Str) : Bool :=
  d.length ≤ 256 && devPathForms d

theorem is_valid_device_path_eq_forms (d : Str) :
    InputValidator.is_valid_device_path d = devPathForms d := by
  by_cases h0 : d = []
  · subst h0; rfl
  · by_cases hres : (d = str "NUL" || d = str "CON" || d = str "PRN" ||
        d = str "AUX" || d = str "LPT1" || d = str "LPT2" || d = str "LPT3") = true
    · have hd := hres
      simp only [Bool.or_eq_true, decide_eq_true_eq] at hd
      rcases hd with ((((((rfl | rfl) | rfl) | rfl) | rfl) | rfl) | rfl) <;> rfl
    · have hresf : (d = str "NUL" || d = str "CON" || d = str "PRN" ||
          d = str "AUX" || d = str "LPT1" || d = str "LPT2" || d = str "LPT3") = false :=
        Bool.eq_false_iff.mpr (fun e => hres e)
      obtain ⟨c, r, rfl⟩ : ∃ c r, d = c :: r := by
        cases d with
        | nil => exact absurd rfl h0
        | cons c r => exact ⟨c, r, rfl⟩
      by_cases hc : c = '/'
      · subst hc
        have htk : ('/' :: r.take 2 = str "COM") = False := by
          simp [str]
        simp [InputValidator.is_valid_device_path, devPathForms, htk, hresf]
      · by_cases hcom : (4 ≤ (c :: r).length && decide ((c :: r).take 3 = str "COM")) = true
        · simp only [InputValidator.is_valid_device_path, devPathForms,
            List.isEmpty_cons, Bool.false_eq_true, if_false, List.headD_cons,
            hc, hcom, hresf]
          simp [hc, hcom, hresf]
        · have hcomf : (4 ≤ (c :: r).length && decide ((c :: r).take 3 = str "COM")) = false :=
            Bool.eq_false_iff.mpr (fun e => hcom e)
          simp only [InputValidator.is_valid_device_path, devPathForms,
            List.isEmpty_cons, Bool.false_eq_true, if_false, List.headD_cons]
          simp [hc, hcomf, hresf]

/-- Claim C2 (amended): `validate_device_path(d)` accepts `d` exactly when
`d` is at most 256 characters long and either begins with '/' and
contains only alphanumerics, '/', '_' and '-', or has length at least 4,
begins with "COM" and `std::stoi` parses its suffix (optional leading
whitespace and sign, trailing non-digits ignored) to a value in 1..255,
or is one of the Windows reserved device names; every other string
throws a `ValidationException`. -/
theorem C2_device_path (d : Str) :
    InputValidator.validate_device_path d = Except.ok () ↔
      amendedDevicePath d = true := by
  unfold InputValidator.validate_device_path amendedDevicePath
  rw [is_valid_device_path_eq_forms]
  by_cases h0 : d.isEmpty
  · have he : d = [] := by simpa [List.isEmpty_iff] using h0
    subst he
    simp [show devPathForms ([] : Str) = false from rfl]
  · have h0f : d.isEmpty = false := by simpa using h0
    by_cases h2 : d.length > InputValidator.MAX_DEVICE_PATH_LENGTH
    · have h2n : ¬ d.length ≤ 256 := by
        simpa [InputValidator.MAX_DEVICE_PATH_LENGTH] using Nat.not_le.mpr h2
      simp [h0f, h2, h2n]
    · have h2y : d.length ≤ 256 := by
        simpa [InputValidator.MAX_DEVICE_PATH_LENGTH] using Nat.not_lt.mp h2
      rw [h0f]
      simp only [Bool.false_eq_true, if_false, if_neg h2]
      cases hform : devPathForms d <;> simp [h2y, hform]

/-! ### lastN lemmas shared by the ring-buffer arguments -/

theorem lastN_of_le {n : Nat} {l : List α} (h : l.length ≤ n) : lastN n l = l := by
  simp [lastN, Nat.sub_eq_zero_of_le h]

theorem lastN_length_le (n : Nat) (l : List α) : (lastN n l).length ≤ n := by
  simp only [lastN, List.length_drop]
  omega

theorem lastN_lastN_append (n : Nat) (xs ys : List α) :
    lastN n (lastN n xs ++ ys) = lastN n (xs ++ ys) := by
  by_cases h : xs.length ≤ n
  · rw [lastN_of_le h]
  · have hn : n ≤ xs.length := Nat.le_of_lt (Nat.lt_of_not_le h)
    simp only [lastN, List.length_append, List.length_drop,
      List.drop_append_eq_append_drop, List.drop_drop]
    have e1 : xs.length - n + (xs.length - (xs.length - n) + ys.length - n) =
        xs.length + ys.length - n := by omega
    have e2 : xs.length - (xs.length - n) + ys.length - n -
        (xs.length - (xs.length - n)) = xs.length + ys.length - n - xs.length := by
      omega
    rw [e1, e2]

/-! ### ErrorHandler (error_handler.cc) -/

/-- Modelled from the spec: `ErrorLevel` is declared in error_handler.hpp,
which is not among the sources; the spec lists the levels as
{Info, Warning, Error, Critical} and `report` compares them by the
enum's underlying order. -/
inductive ErrorLevel where
  | INFO
  | WARNING
  | ERROR
  | CRITICAL
deriving DecidableEq

def ErrorLevel.toNat : ErrorLevel → Nat
  | .INFO => 0
  | .WARNING => 1
  | .ERROR => 2
  | .CRITICAL => 3

/-- The `error.level < min_level_` comparison on the enum's underlying
values. -/
def levelLt (a b : ErrorLevel) : Bool := a.toNat < b.toNat

/-- The fields of `ErrorInfo` (spec §ErrorInfo; the system error code is
omitted, `timestamp` is a number with 0 modelling the default-constructed
`time_point`). -/
structure ErrorInfo where
  level : ErrorLevel
  category : Nat
  component : String
  operation : String
  message : String
  retryable : Bool
  timestamp : Nat
deriving DecidableEq

/-- The aggregate statistics of `ErrorHandler` (`ErrorStats`). -/
structure ErrorStats where
  total_errors : Nat
  errors_by_level : ErrorLevel → Nat
  errors_by_category : Nat → Nat
  retryable_errors : Nat
  first_error : Nat
  last_error : Nat

/-- Modelled from the spec: `MAX_RECENT_ERRORS` is declared in
error_handler.hpp, which is not among the sources; the spec gives the
global ring capacity as 1 000. -/
def MAX_RECENT_ERRORS : Nat := 1000

/-- `MAX_COMPONENT_ERRORS` (error_handler.cc, add_to_component_errors). -/
def MAX_COMPONENT_ERRORS : Nat := 100

/-- The handler's state: enabled flag, minimum level, aggregate stats,
the recent-errors ring, the per-component rings (a map from component
names), and the registered callbacks (identified by index). -/
structure ErrorHandler where
  enabled : Bool
  min_level : ErrorLevel
  stats : ErrorStats
  recent_errors : List ErrorInfo
  errors_by_component : String → List ErrorInfo
  callbacks : List Nat

namespace ErrorHandler

/-- `ErrorHandler::update_stats`. -/
def update_stats (s : ErrorStats) (e : ErrorInfo) : ErrorStats :=
  { total_errors := s.total_errors + 1
    errors_by_level := fun l =>
      if l = e.level then s.errors_by_level l + 1 else s.errors_by_level l
    errors_by_category := fun c =>
      if c = e.category then s.errors_by_category c + 1 else s.errors_by_category c
    retryable_errors := s.retryable_errors + (if e.retryable then 1 else 0)
    first_error := if s.first_error = 0 then e.timestamp else s.first_error
    last_error := e.timestamp }

/-- `ErrorHandler::add_to_recent_errors`: push_back, then erase the
oldest entries when the ring exceeds its capacity. -/
def add_to_recent_errors (r : List ErrorInfo) (e : ErrorInfo) : List ErrorInfo :=
  let r2 := r ++ [e]
  if r2.length > MAX_RECENT_ERRORS then r2.drop (r2.length - MAX_RECENT_ERRORS) else r2

/-- `ErrorHandler::add_to_component_errors`: push_back onto the ring of
`e.component`, then erase the oldest entries beyond 100. -/
def add_to_component_errors (m : String → List ErrorInfo) (e : ErrorInfo) :
    String → List ErrorInfo :=
  fun c =>
    if c = e.component then
      let l := m e.component ++ [e]
      if l.length > MAX_COMPONENT_ERRORS then l.drop (l.length - MAX_COMPONENT_ERRORS)
      else l
    else m c

/-- `ErrorHandler::report_error`: return untouched when disabled or when
the level is below the minimum; otherwise update the stats, both rings,
and invoke every callback (the returned list is the invoked callbacks,
in order). -/
def report_error (h : ErrorHandler) (e : ErrorInfo) : ErrorHandler × List Nat :=
  if h.enabled = false then (h, [])
  else if levelLt e.level h.min_level then (h, [])
  else
    ({ h with
        stats := update_stats h.stats e
        recent_errors := add_to_recent_errors h.recent_errors e
        errors_by_component := add_to_component_errors h.errors_by_component e },
      h.callbacks)

theorem add_to_recent_errors_eq (r : List ErrorInfo) (e : ErrorInfo) :
    add_to_recent_errors r e = lastN MAX_RECENT_ERRORS (r ++ [e]) := by
  unfold add_to_recent_errors lastN
  dsimp only
  split
  · rfl
  · next hle =>
    rw [Nat.sub_eq_zero_of_le (Nat.not_lt.mp hle), List.drop_zero]

theorem add_to_component_errors_self (m : String → List ErrorInfo) (e : ErrorInfo) :
    add_to_component_errors m e e.component =
      lastN MAX_COMPONENT_ERRORS (m e.component ++ [e]) := by
  unfold add_to_component_errors lastN
  rw [if_pos rfl]
  dsimp only
  split
  · rfl
  · next hle =>
    rw [Nat.sub_eq_zero_of_le (Nat.not_lt.mp hle), List.drop_zero]

theorem add_to_component_errors_other (m : String → List ErrorInfo) (e : ErrorInfo)
    (c : String) (hc : c ≠ e.component) :
    add_to_component_errors m e c = m c := by
  unfold add_to_component_errors
  rw [if_neg hc]

end ErrorHandler

/-- Claim C5: `report_error(e)` updates the aggregate statistics, appends
`e` to the recent-errors ring and to `e.component`'s ring, and invokes
every registered subscriber, exactly when the handler is enabled and
`e.level` is not below the minimum level; otherwise the call returns
with the handler unchanged and no subscriber invoked. -/
theorem C5_report_error (h : ErrorHandler) (e : ErrorInfo) :
    (h.enabled = true → levelLt e.level h.min_level = false →
      (ErrorHandler.report_error h e).1.stats.total_errors = h.stats.total_errors + 1 ∧
      (ErrorHandler.report_error h e).1.stats.errors_by_level e.level =
        h.stats.errors_by_level e.level + 1 ∧
      (ErrorHandler.report_error h e).1.stats.last_error = e.timestamp ∧
      (ErrorHandler.report_error h e).1.recent_errors =
        lastN MAX_RECENT_ERRORS (h.recent_errors ++ [e]) ∧
      (ErrorHandler.report_error h e).1.errors_by_component e.component =
        lastN MAX_COMPONENT_ERRORS (h.errors_by_component e.component ++ [e]) ∧
      (∀ c, c ≠ e.component →
        (ErrorHandler.report_error h e).1.errors_by_component c =
          h.errors_by_component c) ∧
      (ErrorHandler.report_error h e).2 = h.callbacks) ∧
    (h.enabled = false ∨ levelLt e.level h.min_level = true →
      ErrorHandler.report_error h e = (h, [])) := by
  constructor
  · intro he hl
    have hrw : ErrorHandler.report_error h e =
        ({ h with
            stats := ErrorHandler.update_stats h.stats e
            recent_errors := ErrorHandler.add_to_recent_errors h.recent_errors e
            errors_by_component :=
              ErrorHandler.add_to_component_errors h.errors_by_component e },
          h.callbacks) := by
      unfold ErrorHandler.report_error
      rw [he, hl]
      simp
    rw [hrw]
    refine ⟨rfl, by simp [ErrorHandler.update_stats], rfl,
      ErrorHandler.add_to_recent_errors_eq _ _,
      ErrorHandler.add_to_component_errors_self _ _,
      fun c hc => ErrorHandler.add_to_component_errors_other _ _ c hc, rfl⟩
  · intro hneg
    unfold ErrorHandler.report_error
    rcases hneg with he | hl
    · rw [he]
      simp
    · rw [hl]
      simp

/-- Sample stats, handlers and errors used by the closed instances. -/
def wStats : ErrorStats :=
  { total_errors := 0, errors_by_level := fun _ => 0,
    errors_by_category := fun _ => 0, retryable_errors := 0,
    first_error := 0, last_error := 0 }

def wHandler : ErrorHandler :=
  { enabled := true, min_level := .WARNING, stats := wStats,
    recent_errors := [], errors_by_component := fun _ => [],
    callbacks := [0, 1] }

def wHandlerOff : ErrorHandler := { wHandler with enabled := false }

def wErr : ErrorInfo :=
  { level := .ERROR, category := 1, component := "tcp_server",
    operation := "accept", message := "boom", retryable := true, timestamp := 5 }

/-- Closed instance of claim C5: an enabled handler at min level WARNING
invokes both subscribers on an ERROR report; a disabled handler is left
unchanged. -/
theorem C5_witness :
    (ErrorHandler.report_error wHandler wErr).2 = [0, 1] ∧
    ErrorHandler.report_error wHandlerOff wErr = (wHandlerOff, []) := by
  constructor
  · exact ((C5_report_error wHandler wErr).1 rfl (by decide)).2.2.2.2.2.2.trans rfl
  · exact (C5_report_error wHandlerOff wErr).2 (Or.inl rfl)

/-! ### The per-component ring across a run of reports (claim C6) -/

/-- A finite sequence of `report_error` calls, applied in order. -/
def ErrorHandler.runReports (h : ErrorHandler) : List ErrorInfo → ErrorHandler
  | [] => h
  | e :: rest => ErrorHandler.runReports (ErrorHandler.report_error h e).1 rest

theorem report_error_preserves_settings (h : ErrorHandler) (e : ErrorInfo) :
    (ErrorHandler.report_error h e).1.enabled = h.enabled ∧
    (ErrorHandler.report_error h e).1.min_level = h.min_level := by
  unfold ErrorHandler.report_error
  split
  · exact ⟨rfl, rfl⟩
  · split
    · exact ⟨rfl, rfl⟩
    · exact ⟨rfl, rfl⟩

/-- The record predicate of a run whose handler has the given settings. -/
def recordsFor (en : Bool) (ml : ErrorLevel) (c : String) (e : ErrorInfo) : Bool :=
  en && !(levelLt e.level ml) && decide (e.component = c)

/-- Whether one `report_error` call records `e` and, if so, what it does to
the ring of component `c`. -/
theorem report_error_component (h : ErrorHandler) (e : ErrorInfo) (c : String) :
    (ErrorHandler.report_error h e).1.errors_by_component c =
      (if recordsFor h.enabled h.min_level c e
       then lastN MAX_COMPONENT_ERRORS (h.errors_by_component c ++ [e])
       else h.errors_by_component c) := by
  unfold recordsFor
  cases he : h.enabled with
  | false => simp [ErrorHandler.report_error, he]
  | true =>
    cases hl : levelLt e.level h.min_level with
    | true => simp [ErrorHandler.report_error, he, hl]
    | false =>
      by_cases hc : e.component = c
      · subst hc
        simp only [ErrorHandler.report_error, he, hl]
        simp [ErrorHandler.add_to_component_errors_self]
      · simp only [ErrorHandler.report_error, he, hl]
        simp [hc, ErrorHandler.add_to_component_errors_other _ _ c (fun x => hc x.symm)]

theorem runReports_components (errs : List ErrorInfo) :
    ∀ (h : ErrorHandler) (c : String) (en : Bool) (ml : ErrorLevel),
      h.enabled = en → h.min_level = ml →
      (h.errors_by_component c).length ≤ MAX_COMPONENT_ERRORS →
      (ErrorHandler.runReports h errs).errors_by_component c =
        lastN MAX_COMPONENT_ERRORS
          (h.errors_by_component c ++ errs.filter (recordsFor en ml c)) := by
  induction errs with
  | nil =>
    intro h c en ml he hm hlen
    simp [ErrorHandler.runReports, lastN_of_le hlen]
  | cons e rest ih =>
    intro h c en ml he hm hlen
    subst he
    subst hm
    have hpres := report_error_preserves_settings h e
    have hcomp := report_error_component h e c
    show (ErrorHandler.runReports (ErrorHandler.report_error h e).1 rest).errors_by_component c = _
    cases hrec : recordsFor h.enabled h.min_level c e with
    | true =>
      have hc1 : (ErrorHandler.report_error h e).1.errors_by_component c =
          lastN MAX_COMPONENT_ERRORS (h.errors_by_component c ++ [e]) := by
        rw [hcomp, if_pos]
        exact hrec
      have hfc : List.filter (recordsFor h.enabled h.min_level c) (e :: rest) =
          e :: List.filter (recordsFor h.enabled h.min_level c) rest := by
        simp [List.filter_cons, hrec]
      rw [ih (ErrorHandler.report_error h e).1 c h.enabled h.min_level hpres.1 hpres.2
        (by rw [hc1]; exact lastN_length_le _ _), hc1, lastN_lastN_append,
        List.append_assoc, List.singleton_append, hfc]
    | false =>
      have hc1 : (ErrorHandler.report_error h e).1.errors_by_component c =
          h.errors_by_component c := by
        rw [hcomp, if_neg]
        rw [hrec]
        simp
      have hfc : List.filter (recordsFor h.enabled h.min_level c) (e :: rest) =
          List.filter (recordsFor h.enabled h.min_level c) rest := by
        simp [List.filter_cons, hrec]
      rw [ih (ErrorHandler.report_error h e).1 c h.enabled h.min_level hpres.1 hpres.2
        (by rw [hc1]; exact hlen), hc1, hfc]

/-- Claim C6: after any finite sequence of `report_error` calls starting
from a handler whose ring for component `c` is empty, the ring for `c`
holds at most 100 entries, and they are exactly the most recently
recorded errors for `c`, in reporting order (oldest evicted first). -/
theorem C6_component_ring (h : ErrorHandler) (errs : List ErrorInfo) (c : String)
    (hempty : h.errors_by_component c = []) :
    ((ErrorHandler.runReports h errs).errors_by_component c).length ≤ 100 ∧
    (ErrorHandler.runReports h errs).errors_by_component c =
      lastN 100 (errs.filter (recordsFor h.enabled h.min_level c)) := by
  have hmain := runReports_components errs h c h.enabled h.min_level rfl rfl
    (by rw [hempty]; exact Nat.zero_le _)
  rw [hempty, List.nil_append] at hmain
  exact ⟨hmain ▸ lastN_length_le _ _, hmain⟩

def wErrA : ErrorInfo :=
  { level := .ERROR, category := 0, component := "net",
    operation := "read", message := "m1", retryable := false, timestamp := 1 }

def wErrB : ErrorInfo :=
  { level := .INFO, category := 0, component := "net",
    operation := "read", message := "m2", retryable := false, timestamp := 2 }

def wErrC : ErrorInfo :=
  { level := .CRITICAL, category := 2, component := "net",
    operation := "write", message := "m3", retryable := true, timestamp := 3 }

/-- Closed instance of claim C6: reporting an ERROR, an INFO (below the
WARNING minimum, hence not recorded) and a CRITICAL for component "net"
leaves exactly the two recorded errors, in order. -/
theorem C6_witness :
    ((ErrorHandler.runReports wHandler [wErrA, wErrB, wErrC]).errors_by_component
        "net").length ≤ 100 ∧
    (ErrorHandler.runReports wHandler [wErrA, wErrB, wErrC]).errors_by_component "net" =
      lastN 100 ([wErrA, wErrB, wErrC].filter
        (recordsFor wHandler.enabled wHandler.min_level "net")) :=
  C6_component_ring wHandler [wErrA, wErrB, wErrC] "net" rfl

/-! ### The wrapper TcpServer facade (wrapper/tcp_server/tcp_server.cc) -/

/-- `safe_convert::string_to_uint8`: the byte vector of a string. -/
def string_to_uint8 (s : Str) : List Nat := s.map Char.toNat

namespace wrapper

/-- The observable state of the underlying channel the wrapper holds, as
far as the wrapper inspects it: its connectedness, whether the
`dynamic_pointer_cast` to `transport::TcpServer` succeeds, and the
transport server's client bookkeeping. -/
structure TransportChannel where
  connected : Bool
  is_transport_server : Bool
  client_count : Nat
  clients : List Nat
deriving DecidableEq

/-- Externally visible actions a wrapper call performs on its channel or
its callbacks. -/
inductive WrapperEvent where
  | async_write_copy (bytes : List Nat)
  | channel_stop
  | cb_connect
  | cb_disconnect
  | cb_error (msg : String)
deriving DecidableEq

/-- The wrapper's own fields (`wrapper::TcpServer`): the port, the
optional channel (absent until `start()`), the started and listening
flags, and the stored client-limit and retry configuration. -/
structure TcpServer where
  port : Nat
  channel : Option TransportChannel
  started : Bool
  is_listening : Bool
  max_clients : Nat
  client_limit_enabled : Bool
  port_retry_enabled : Bool
deriving DecidableEq

/-- `wrapper::TcpServer::is_connected`: `channel_ && channel_->is_connected()`. -/
def TcpServer.is_connected (s : TcpServer) : Bool :=
  match s.channel with
  | some ch => ch.connected
  | none => false

/-- `wrapper::TcpServer::send`: writes the converted bytes to the channel
only when connected; otherwise does nothing at all. -/
def TcpServer.send (s : TcpServer) (data : Str) : TcpServer × List WrapperEvent :=
  if s.is_connected && s.channel.isSome then
    (s, [WrapperEvent.async_write_copy (string_to_uint8 data)])
  else (s, [])

/-- `wrapper::TcpServer::send_line`: `send(line + "\n")`. -/
def TcpServer.send_line (s : TcpServer) (line : Str) : TcpServer × List WrapperEvent :=
  TcpServer.send s (line ++ ['\n'])

/-- `wrapper::TcpServer::stop`: a no-op unless started with a live
channel; otherwise stops the channel, drops it and clears `started_`. -/
def TcpServer.stop (s : TcpServer) : TcpServer × List WrapperEvent :=
  if !s.started || s.channel.isNone then (s, [])
  else ({ s with channel := none, started := false }, [WrapperEvent.channel_stop])

/-- `wrapper::TcpServer::get_client_count`: the transport server's count
when the channel exists and casts, 0 otherwise. -/
def TcpServer.get_client_count (s : TcpServer) : Nat :=
  match s.channel with
  | some ch => if ch.is_transport_server then ch.client_count else 0
  | none => 0

/-- `wrapper::TcpServer::get_connected_clients`. -/
def TcpServer.get_connected_clients (s : TcpServer) : List Nat :=
  match s.channel with
  | some ch => if ch.is_transport_server then ch.clients else []
  | none => []

/-- `wrapper::TcpServer::set_client_limit` on a wrapper without a channel. -/
def TcpServer.set_client_limit (s : TcpServer) (m : Nat) : TcpServer :=
  { s with max_clients := m, client_limit_enabled := true }

/-- `wrapper::TcpServer::set_unlimited_clients` on a wrapper without a
channel. -/
def TcpServer.set_unlimited_clients (s : TcpServer) : TcpServer :=
  { s with client_limit_enabled := false, max_clients := 0 }

end wrapper

/-- Claim C4: on a wrapper `TcpServer` whose `is_connected()` is false,
`send(data)` transmits nothing, raises no error, invokes no callback and
leaves the server's observable state unchanged. -/
theorem C4_send_disconnected (s : wrapper.TcpServer) (data : Str)
    (h : wrapper.TcpServer.is_connected s = false) :
    wrapper.TcpServer.send s data = (s, []) := by
  unfold wrapper.TcpServer.send
  rw [h]
  simp

/-- Sample wrapper server with no channel. -/
def wIdleServer : wrapper.TcpServer :=
  { port := 9000, channel := none, started := false, is_listening := false,
    max_clients := 0, client_limit_enabled := false, port_retry_enabled := false }

/-- Closed instance of claim C4: sending "hi" on a disconnected server
does nothing. -/
theorem C4_witness :
    wrapper.TcpServer.send wIdleServer (str "hi") = (wIdleServer, []) :=
  C4_send_disconnected wIdleServer (str "hi") rfl

/-- Claim C7: `send_line(s)` performs exactly `send(s + "\n")`, with the
same resulting state and the same emitted actions, for every server
state and every string. -/
theorem C7_send_line (s : wrapper.TcpServer) (line : Str) :
    wrapper.TcpServer.send_line s line =
      wrapper.TcpServer.send s (line ++ str "\n") := rfl

/-- Claim C8: `stop()` on a wrapper that was never started (`started_` is
false or no channel exists) returns immediately, changes no state and
delivers no callbacks. -/
theorem C8_stop_idle (s : wrapper.TcpServer)
    (h : s.started = false ∨ s.channel = none) :
    wrapper.TcpServer.stop s = (s, []) := by
  unfold wrapper.TcpServer.stop
  rcases h with h | h
  · rw [h]
    simp
  · rw [h]
    simp

/-- Closed instance of claim C8: stopping the never-started sample server
is a no-op. -/
theorem C8_witness : wrapper.TcpServer.stop wIdleServer = (wIdleServer, []) :=
  C8_stop_idle wIdleServer (Or.inl rfl)

/-- Claim C10: before `start()` has created the channel, every query
returns its neutral value: 0 clients, no client list, not connected. -/
theorem C10_queries_neutral (s : wrapper.TcpServer) (h : s.channel = none) :
    wrapper.TcpServer.get_client_count s = 0 ∧
    wrapper.TcpServer.get_connected_clients s = [] ∧
    wrapper.TcpServer.is_connected s = false := by
  unfold wrapper.TcpServer.get_client_count wrapper.TcpServer.get_connected_clients
    wrapper.TcpServer.is_connected
  rw [h]
  exact ⟨rfl, rfl, rfl⟩

/-- Closed instance of claim C10 on the sample channel-less server. -/
theorem C10_witness :
    wrapper.TcpServer.get_client_count wIdleServer = 0 ∧
    wrapper.TcpServer.get_connected_clients wIdleServer = [] ∧
    wrapper.TcpServer.is_connected wIdleServer = false :=
  C10_queries_neutral wIdleServer rfl

/-! ### TcpServerBuilder (builder/tcp_server_builder.cc) -/

namespace builder

def SIZE_MAX : Nat := 2 ^ 64 - 1

/-- The builder's fields, named as in the source.  The callback slots and
the retry-interval value are not observed by any claim and are omitted. -/
structure TcpServerBuilder where
  port_ : Nat
  auto_start_ : Bool
  auto_manage_ : Bool
  use_independent_context_ : Bool
  enable_port_retry_ : Bool
  max_port_retries_ : Nat
  max_clients_ : Nat
  client_limit_set_ : Bool
deriving DecidableEq

/-- The `TcpServerBuilder(port)` constructor: validates the port (0 is
rejected) and initialises the fields as the member initialiser list does
(`max_clients_ = SIZE_MAX`, `client_limit_set_ = false`). -/
def TcpServerBuilder.create (port : Nat) : Except String TcpServerBuilder :=
  if port = 0 then
    Except.error "Invalid TCP server parameters: port cannot be zero"
  else
    Except.ok
      { port_ := port, auto_start_ := false, auto_manage_ := false,
        use_independent_context_ := false, enable_port_retry_ := false,
        max_port_retries_ := 3, max_clients_ := SIZE_MAX,
        client_limit_set_ := false }

/-- `TcpServerBuilder::max_clients`: rejects 0 and 1 with
`std::invalid_argument`, otherwise records the limit. -/
def TcpServerBuilder.max_clients (b : TcpServerBuilder) (max : Nat) :
    Except String TcpServerBuilder :=
  if max = 0 then Except.error "Use unlimited_clients() for unlimited connections"
  else if max = 1 then Except.error "Use single_client() for single client mode"
  else Except.ok { b with max_clients_ := max, client_limit_set_ := true }

/-- `TcpServerBuilder::single_client`. -/
def TcpServerBuilder.single_client (b : TcpServerBuilder) : TcpServerBuilder :=
  { b with max_clients_ := 1, client_limit_set_ := true }

/-- `TcpServerBuilder::multi_client` (identical checks to `max_clients`). -/
def TcpServerBuilder.multi_client (b : TcpServerBuilder) (max : Nat) :
    Except String TcpServerBuilder :=
  if max = 0 then Except.error "Use unlimited_clients() for unlimited connections"
  else if max = 1 then Except.error "Use single_client() for single client mode"
  else Except.ok { b with max_clients_ := max, client_limit_set_ := true }

/-- `TcpServerBuilder::unlimited_clients` (0 encodes "unlimited"). -/
def TcpServerBuilder.unlimited_clients (b : TcpServerBuilder) : TcpServerBuilder :=
  { b with max_clients_ := 0, client_limit_set_ := true }

/-- `TcpServerBuilder::auto_start`. -/
def TcpServerBuilder.auto_start (b : TcpServerBuilder) (v : Bool) : TcpServerBuilder :=
  { b with auto_start_ := v }

/-- `TcpServerBuilder::auto_manage`. -/
def TcpServerBuilder.auto_manage (b : TcpServerBuilder) (v : Bool) : TcpServerBuilder :=
  { b with auto_manage_ := v }

/-- `TcpServerBuilder::use_independent_context`. -/
def TcpServerBuilder.use_independent_context (b : TcpServerBuilder) (v : Bool) :
    TcpServerBuilder :=
  { b with use_independent_context_ := v }

/-- `TcpServerBuilder::enable_port_retry`. -/
def TcpServerBuilder.enable_port_retry (b : TcpServerBuilder) (v : Bool)
    (retries : Nat) : TcpServerBuilder :=
  { b with enable_port_retry_ := v, max_port_retries_ := retries }

/-- `TcpServerBuilder::build`: throws (before any server object is
constructed) when no client limit was recorded; otherwise constructs the
wrapper server, applies the stored limit (`set_unlimited_clients` for 0,
`set_client_limit` otherwise) and the port-retry configuration. -/
def TcpServerBuilder.build (b : TcpServerBuilder) : Except String wrapper.TcpServer :=
  if b.client_limit_set_ = false then
    Except.error "Client limit must be set before building server. Use single_client(), multi_client(n), or unlimited_clients()"
  else
    let server : wrapper.TcpServer :=
      { port := b.port_, channel := none, started := false, is_listening := false,
        max_clients := 0, client_limit_enabled := false,
        port_retry_enabled := false }
    let server :=
      if b.max_clients_ = 0 then wrapper.TcpServer.set_unlimited_clients server
      else wrapper.TcpServer.set_client_limit server b.max_clients_
    let server :=
      if b.enable_port_retry_ then { server with port_retry_enabled := true }
      else server
    Except.ok server

end builder

/-- Claim C3: configuring the bounded client limit with n = 0 or n = 1
through `max_clients` or `multi_client` throws at configuration time;
every n at least 2 is accepted and recorded; `single_client` and
`unlimited_clients` are the accepted paths for limit 1 and no limit. -/
theorem C3_client_limit (b : builder.TcpServerBuilder) (n : Nat) :
    ((n = 0 ∨ n = 1) →
      (∃ msg, builder.TcpServerBuilder.max_clients b n = Except.error msg) ∧
      (∃ msg, builder.TcpServerBuilder.multi_client b n = Except.error msg)) ∧
    (2 ≤ n →
      builder.TcpServerBuilder.max_clients b n =
        Except.ok { b with max_clients_ := n, client_limit_set_ := true } ∧
      builder.TcpServerBuilder.multi_client b n =
        Except.ok { b with max_clients_ := n, client_limit_set_ := true }) ∧
    builder.TcpServerBuilder.single_client b =
      { b with max_clients_ := 1, client_limit_set_ := true } ∧
    builder.TcpServerBuilder.unlimited_clients b =
      { b with max_clients_ := 0, client_limit_set_ := true } := by
  refine ⟨?_, ?_, rfl, rfl⟩
  · rintro (rfl | rfl)
    · exact ⟨⟨_, rfl⟩, ⟨_, rfl⟩⟩
    · exact ⟨⟨_, rfl⟩, ⟨_, rfl⟩⟩
  · intro hn
    have h0 : n ≠ 0 := by omega
    have h1 : n ≠ 1 := by omega
    unfold builder.TcpServerBuilder.max_clients builder.TcpServerBuilder.multi_client
    rw [if_neg h0, if_neg h1]
    exact ⟨rfl, rfl⟩

/-- The sample builder produced by `TcpServerBuilder(8080)`. -/
def wBuilder : builder.TcpServerBuilder :=
  { port_ := 8080, auto_start_ := false, auto_manage_ := false,
    use_independent_context_ := false, enable_port_retry_ := false,
    max_port_retries_ := 3, max_clients_ := builder.SIZE_MAX,
    client_limit_set_ := false }

/-- Closed instance of claim C3: n = 0 is rejected and n = 5 is recorded
on the sample builder. -/
theorem C3_witness :
    (∃ msg, builder.TcpServerBuilder.max_clients wBuilder 0 = Except.error msg) ∧
    builder.TcpServerBuilder.max_clients wBuilder 5 =
      Except.ok { wBuilder with max_clients_ := 5, client_limit_set_ := true } :=
  ⟨((C3_client_limit wBuilder 0).1 (Or.inl rfl)).1,
   ((C3_client_limit wBuilder 5).2.1 (by omega)).1⟩

/-! ### Builder call sequences (claim C9) -/

/-- The configuration calls a user can make on a `TcpServerBuilder`
before `build()`. -/
inductive BuilderOp where
  | max_clients (n : Nat)
  | single_client
  | multi_client (n : Nat)
  | unlimited_clients
  | auto_start (v : Bool)
  | auto_manage (v : Bool)
  | use_independent_context (v : Bool)
  | enable_port_retry (v : Bool) (retries : Nat)
deriving DecidableEq

def applyOp (b : builder.TcpServerBuilder) : BuilderOp →
    Except String builder.TcpServerBuilder
  | .max_clients n => b.max_clients n
  | .single_client => Except.ok b.single_client
  | .multi_client n => b.multi_client n
  | .unlimited_clients => Except.ok b.unlimited_clients
  | .auto_start v => Except.ok (b.auto_start v)
  | .auto_manage v => Except.ok (b.auto_manage v)
  | .use_independent_context v => Except.ok (b.use_independent_context v)
  | .enable_port_retry v r => Except.ok (b.enable_port_retry v r)

/-- Applying a sequence of configuration calls in order; an exception
aborts the sequence. -/
def applyOps (b : builder.TcpServerBuilder) : List BuilderOp →
    Except String builder.TcpServerBuilder
  | [] => Except.ok b
  | op :: rest => (applyOp b op).bind (fun b2 => applyOps b2 rest)

/-- The three methods the claim names. -/
def isLimitTriple : BuilderOp → Bool
  | .single_client => true
  | .multi_client _ => true
  | .unlimited_clients => true
  | _ => false

/-- All four methods that record a client limit (the claim omits
`max_clients`). -/
def isLimitOp : BuilderOp → Bool
  | .max_clients _ => true
  | .single_client => true
  | .multi_client _ => true
  | .unlimited_clients => true
  | _ => false

def exceptOk (x : Except String α) : Bool :=
  match x with
  | .ok _ => true
  | .error _ => false

/-- Claim C9 counterexample: a builder on which only `max_clients(5)` was
called — none of `single_client`, `multi_client`, `unlimited_clients` —
still builds successfully, contradicting "build() throws whenever none
of those three was called". -/
theorem C9_counterexample :
    ([BuilderOp.max_clients 5].all (fun op => !isLimitTriple op)) = true ∧
    exceptOk (Except.bind
      (Except.bind (builder.TcpServerBuilder.create 8080)
        (fun b0 => applyOps b0 [BuilderOp.max_clients 5]))
      builder.TcpServerBuilder.build) = true :=
  ⟨rfl, rfl⟩

theorem applyOp_flag (b b1 : builder.TcpServerBuilder) (op : BuilderOp)
    (h : applyOp b op = Except.ok b1) :
    b1.client_limit_set_ = (b.client_limit_set_ || isLimitOp op) := by
  cases op with
  | max_clients n =>
    simp only [applyOp] at h
    unfold builder.TcpServerBuilder.max_clients at h
    split at h
    · simp at h
    · split at h
      · simp at h
      · injection h with h2
        rw [← h2]
        simp [isLimitOp]
  | multi_client n =>
    simp only [applyOp] at h
    unfold builder.TcpServerBuilder.multi_client at h
    split at h
    · simp at h
    · split at h
      · simp at h
      · injection h with h2
        rw [← h2]
        simp [isLimitOp]
  | single_client =>
    simp only [applyOp] at h
    injection h with h2
    rw [← h2]
    simp [builder.TcpServerBuilder.single_client, isLimitOp]
  | unlimited_clients =>
    simp only [applyOp] at h
    injection h with h2
    rw [← h2]
    simp [builder.TcpServerBuilder.unlimited_clients, isLimitOp]
  | auto_start v =>
    simp only [applyOp] at h
    injection h with h2
    rw [← h2]
    simp [builder.TcpServerBuilder.auto_start, isLimitOp]
  | auto_manage v =>
    simp only [applyOp] at h
    injection h with h2
    rw [← h2]
    simp [builder.TcpServerBuilder.auto_manage, isLimitOp]
  | use_independent_context v =>
    simp only [applyOp] at h
    injection h with h2
    rw [← h2]
    simp [builder.TcpServerBuilder.use_independent_context, isLimitOp]
  | enable_port_retry v r =>
    simp only [applyOp] at h
    injection h with h2
    rw [← h2]
    simp [builder.TcpServerBuilder.enable_port_retry, isLimitOp]

theorem applyOps_flag : ∀ (ops : List BuilderOp) (b b2 : builder.TcpServerBuilder),
    applyOps b ops = Except.ok b2 →
    b2.client_limit_set_ = (b.client_limit_set_ || ops.any isLimitOp) := by
  intro ops
  induction ops with
  | nil =>
    intro b b2 h
    unfold applyOps at h
    injection h with h2
    rw [← h2]
    simp
  | cons op rest ih =>
    intro b b2 h
    unfold applyOps at h
    cases hop : applyOp b op with
    | error m =>
      rw [hop] at h
      simp [Except.bind] at h
    | ok b1 =>
      rw [hop] at h
      simp only [Except.bind] at h
      rw [ih b1 b2 h, applyOp_flag b b1 op hop]
      simp [Bool.or_assoc]

theorem create_flag (p : Nat) (b0 : builder.TcpServerBuilder)
    (h : builder.TcpServerBuilder.create p = Except.ok b0) :
    b0.client_limit_set_ = false := by
  unfold builder.TcpServerBuilder.create at h
  split at h
  · simp at h
  · injection h with h2
    rw [← h2]

/-- Claim C9 (amended): `build()` throws exactly when none of
`single_client()`, `multi_client(n)`, `unlimited_clients()` or
`max_clients(n)` was called on the builder, the failure producing no
server; when a limit was recorded, `build()` returns a server carrying
that limit (unlimited when the recorded value is 0). -/
theorem C9_build (p : Nat) (ops : List BuilderOp) (b0 b : builder.TcpServerBuilder)
    (h0 : builder.TcpServerBuilder.create p = Except.ok b0)
    (h1 : applyOps b0 ops = Except.ok b) :
    (ops.any isLimitOp = false →
      builder.TcpServerBuilder.build b =
        Except.error "Client limit must be set before building server. Use single_client(), multi_client(n), or unlimited_clients()") ∧
    (∀ s, builder.TcpServerBuilder.build b = Except.ok s →
      (b.max_clients_ = 0 → s.client_limit_enabled = false ∧ s.max_clients = 0) ∧
      (b.max_clients_ ≠ 0 →
        s.client_limit_enabled = true ∧ s.max_clients = b.max_clients_)) ∧
    (ops.any isLimitOp = true →
      exceptOk (builder.TcpServerBuilder.build b) = true) := by
  have hflag : b.client_limit_set_ = ops.any isLimitOp := by
    rw [applyOps_flag ops b0 b h1, create_flag p b0 h0]
    simp
  refine ⟨?_, ?_, ?_⟩
  · intro hnone
    unfold builder.TcpServerBuilder.build
    rw [if_pos (hflag.trans hnone)]
  · intro s hs
    unfold builder.TcpServerBuilder.build at hs
    split at hs
    · simp at hs
    · injection hs with h2
      by_cases hm : b.max_clients_ = 0
      · refine ⟨fun _ => ?_, fun hm2 => absurd hm hm2⟩
        rw [← h2]
        cases hpr : b.enable_port_retry_ <;>
          simp [hm, hpr, wrapper.TcpServer.set_unlimited_clients]
      · refine ⟨fun hm2 => absurd hm2 hm, fun _ => ?_⟩
        rw [← h2]
        cases hpr : b.enable_port_retry_ <;>
          simp [hm, hpr, wrapper.TcpServer.set_client_limit]
  · intro hsome
    unfold builder.TcpServerBuilder.build
    rw [if_neg (show ¬ b.client_limit_set_ = false by
      rw [hflag, hsome]; simp)]
    rfl

def wBuilderB : builder.TcpServerBuilder := { wBuilder with auto_start_ := true }

def wBuilderC : builder.TcpServerBuilder :=
  { wBuilder with max_clients_ := 3, client_limit_set_ := true }

/-- Closed instance of the amended claim C9: a builder configured only
with `auto_start(true)` fails to build; one configured with
`multi_client(3)` builds. -/
theorem C9_witness :
    builder.TcpServerBuilder.build wBuilderB =
      Except.error "Client limit must be set before building server. Use single_client(), multi_client(n), or unlimited_clients()" ∧
    exceptOk (builder.TcpServerBuilder.build wBuilderC) = true :=
  ⟨(C9_build 8080 [BuilderOp.auto_start true] wBuilder wBuilderB rfl rfl).1 rfl,
   (C9_build 8080 [BuilderOp.multi_client 3] wBuilder wBuilderC rfl rfl).2.2 rfl⟩

end Unilink
